import Mathlib

/-!
Verification of the CSV serializer (`src/lib/codecs/src/encoding/format/csv.rs`).

The serializer projects a structured log record onto an ordered list of field
paths and writes one delimiter-separated line of bytes into a growable byte
sink.  Configuration (`CsvSerializerConfig` / `CsvSerializerOptions`) is
validated once by `build`; the resulting `CsvSerializer` encodes one record
per `encode` call.

Byte sequences are modelled as `List Nat` (each element a byte value).  The
underlying CSV writer (the external `csv` crate) and the timestamp / number
formatting routines (external `chrono` / Rust standard library) are not part
of the repository source; they are modelled from the specification's
description of their behaviour, as noted on each such definition.
-/

/-! ## Byte-level text helpers -/

/-- UTF-8 encoding of a single character, as byte values. -/
def utf8Char (c : Char) : List Nat :=
  let n := c.toNat
  if n < 0x80 then [n]
  else if n < 0x800 then [0xC0 ||| (n >>> 6), 0x80 ||| (n &&& 0x3F)]
  else if n < 0x10000 then
    [0xE0 ||| (n >>> 12), 0x80 ||| ((n >>> 6) &&& 0x3F), 0x80 ||| (n &&& 0x3F)]
  else
    [0xF0 ||| (n >>> 18), 0x80 ||| ((n >>> 12) &&& 0x3F),
     0x80 ||| ((n >>> 6) &&& 0x3F), 0x80 ||| (n &&& 0x3F)]

/-- UTF-8 encoding of a string, as byte values. -/
def utf8Encode (s : String) : List Nat := s.toList.flatMap utf8Char

/-- Decimal digits of a positive number, most significant first (fuelled
recursion so that it reduces in the kernel). -/
def natDigitsAux : Nat → Nat → List Nat
  | 0, _ => []
  | fuel + 1, n => if n = 0 then [] else natDigitsAux fuel (n / 10) ++ [48 + n % 10]

/-- Canonical base-10 byte text of a natural number. -/
def natToBytes (n : Nat) : List Nat := if n = 0 then [48] else natDigitsAux (n + 1) n

/-- Canonical base-10 byte text of an integer, mirroring Rust's
`i64::to_string` (minus sign followed by digits for negative values). -/
def intToBytes : Int → List Nat
  | .ofNat n => natToBytes n
  | .negSucc m => 45 :: natToBytes (m + 1)

/-- Zero-padded decimal byte text of width at least `width`. -/
def padNat (width n : Nat) : List Nat :=
  let d := natToBytes n
  List.replicate (width - d.length) 48 ++ d

/-! ## Timestamp model

Modelled from the spec: values of timestamp type are instants (seconds since
the Unix epoch plus a subsecond nanosecond part, as in `chrono`'s
`DateTime<Utc>`), and the encoder prints them as RFC 3339 text with timezone
`Z` and "AutoSi" fractional seconds.  The calendar arithmetic is the standard
proleptic-Gregorian civil-date conversion. -/

/-- Day count since 1970-01-01 of a proleptic-Gregorian civil date. -/
def daysFromCivil (y : Int) (m d : Nat) : Int :=
  let y' : Int := if m ≤ 2 then y - 1 else y
  let era : Int := y'.fdiv 400
  let yoe : Nat := (y' - era * 400).toNat
  let mp : Nat := if m > 2 then m - 3 else m + 9
  let doy : Nat := (153 * mp + 2) / 5 + d - 1
  let doe : Nat := yoe * 365 + yoe / 4 - yoe / 100 + doy
  era * 146097 + doe - 719468

/-- Civil date (year, month, day) of a day count since 1970-01-01. -/
def civilFromDays (days : Int) : Int × Nat × Nat :=
  let z : Int := days + 719468
  let era : Int := z.fdiv 146097
  let doe : Nat := (z - era * 146097).toNat
  let yoe : Nat := (doe - doe / 1460 + doe / 36524 - doe / 146096) / 365
  let doy : Nat := doe - (365 * yoe + yoe / 4 - yoe / 100)
  let mp : Nat := (5 * doy + 2) / 153
  let d : Nat := doy - (153 * mp + 2) / 5 + 1
  let m : Nat := if mp < 10 then mp + 3 else mp - 9
  (era * 400 + yoe + (if m ≤ 2 then 1 else 0), m, d)

/-- Modelled from the spec: `chrono`'s `to_rfc3339_opts(SecondsFormat::AutoSi,
true)` — RFC 3339 text in UTC with suffix `Z`, the fractional part omitted
when the instant is whole seconds and otherwise printed with the smallest of
milli/micro/nanosecond precision that represents it exactly. -/
def rfc3339AutoSiZ (secs : Int) (nanos : Nat) : List Nat :=
  let days := secs.fdiv 86400
  let sod := (secs - days * 86400).toNat
  let c := civilFromDays days
  let y := c.1
  let yBytes := if y < 0 then 45 :: padNat 4 (-y).toNat else padNat 4 y.toNat
  let frac : List Nat :=
    if nanos = 0 then []
    else if nanos % 1000000 = 0 then 46 :: padNat 3 (nanos / 1000000)
    else if nanos % 1000 = 0 then 46 :: padNat 6 (nanos / 1000)
    else 46 :: padNat 9 nanos
  yBytes ++ [45] ++ padNat 2 c.2.1 ++ [45] ++ padNat 2 c.2.2 ++ [84] ++
    padNat 2 (sod / 3600) ++ [58] ++ padNat 2 (sod % 3600 / 60) ++ [58] ++
    padNat 2 (sod % 60) ++ frac ++ [90]

/-- Modelled from the spec: the instant denoted by a civil date-time with a
fixed offset (in minutes) from UTC, as produced by RFC 3339 parsing. -/
def mkTimestampSecs (y : Int) (m d h mi s : Nat) (offsetMinutes : Int) : Int :=
  daysFromCivil y m d * 86400 + (h * 3600 + mi * 60 + s : Nat) - offsetMinutes * 60

/-! ## The record model

Modelled from the spec: the external event model is an opaque keyed container
of typed values; the encoder only needs get-by-path returning an optional
typed value.  A record is an association list from keys to values (so that a
record's internal ordering is part of the representation and the claims about
order-independence are non-trivial); a field path is a non-empty chain of
keys, resolved by descending through object values.  Byte-string values are
carried as their text (the claims only involve valid UTF-8, where the lossy
UTF-8 decode performed by the encoder is the identity), and floating-point
values by their canonical shortest round-trip decimal text, since binary
float formatting is external to the source. -/

inductive Value where
  | str (s : String)
  | int (i : Int)
  | float (text : String)
  | bool (b : Bool)
  | timestamp (secs : Int) (nanos : Nat)
  | null
  | array (xs : List Value)
  | object (kvs : List (String × Value))
  | regex (s : String)

/-- A record: keyed container of typed values, with an internal order. -/
abbrev Record := List (String × Value)

/-- A field path: a non-empty chain of keys (`["a", "b"]` addresses `.a.b`). -/
abbrev FieldPath := List String

/-- First-match lookup of a key among key-value pairs. -/
def lookupKey : List (String × Value) → String → Option Value
  | [], _ => none
  | (k, v) :: rest, key => if k = key then some v else lookupKey rest key

/-- Resolve the remainder of a path inside a value: descends through objects,
fails on any other value when path segments remain. -/
def resolveIn : List String → Value → Option Value
  | [], v => some v
  | k :: rest, .object kvs =>
    match lookupKey kvs k with
    | some v => resolveIn rest v
    | none => none
  | _ :: _, _ => none

/-- Resolve a field path against a record (`log.get(path)`). -/
def resolvePath (r : Record) : FieldPath → Option Value
  | [] => none
  | k :: rest =>
    match lookupKey r k with
    | some v => resolveIn rest v
    | none => none

/-! ## Configuration (`CsvSerializerConfig`, `CsvSerializerOptions`) -/

/-- The quoting-style enumeration of the configuration. -/
inductive QuoteStyle where
  | always
  | necessary
  | nonNumeric
  | never
deriving DecidableEq

/-- The CSV serializer options: delimiter byte, double-quote toggle, escape
byte, quoting style and the ordered list of projected field paths. -/
structure CsvSerializerOptions where
  delimiter : Nat
  double_quote : Bool
  escape : Nat
  quote_style : QuoteStyle
  fields : List FieldPath
deriving DecidableEq

/-- The `Default` instance of `CsvSerializerOptions`. -/
def CsvSerializerOptions.default : CsvSerializerOptions where
  delimiter := 44
  double_quote := true
  escape := 34
  quote_style := .necessary
  fields := []

/-- Config used to build a `CsvSerializer`. -/
structure CsvSerializerConfig where
  csv : CsvSerializerOptions
deriving DecidableEq

/-- Mapping from the configuration's quote style to the writer's quote style
(`CsvSerializerOptions::csv_quote_style`); the writer-side enumeration is
modelled by the same type. -/
def CsvSerializerOptions.csv_quote_style (o : CsvSerializerOptions) : QuoteStyle :=
  match o.quote_style with
  | .always => .always
  | .nonNumeric => .nonNumeric
  | .never => .never
  | _ => .necessary

/-- Serializer that converts a record to bytes using the CSV format. -/
structure CsvSerializer where
  config : CsvSerializerConfig
deriving DecidableEq

/-- Creates a new `CsvSerializer`. -/
def CsvSerializer.new (config : CsvSerializerConfig) : CsvSerializer :=
  { config := config }

/-- Build the `CsvSerializer` from this configuration: fails when the field
list is empty, otherwise snapshots the options into a serializer. -/
def CsvSerializerConfig.build (c : CsvSerializerConfig) : Except String CsvSerializer :=
  if c.csv.fields.isEmpty then
    .error "At least one CSV field must be specified"
  else
    let opts : CsvSerializerOptions :=
      { delimiter := c.csv.delimiter
        escape := c.csv.escape
        double_quote := c.csv.double_quote
        quote_style := c.csv.quote_style
        fields := c.csv.fields }
    .ok (CsvSerializer.new { csv := opts })

/-! ## The CSV writer

Modelled from the spec: the underlying writer (external `csv` crate,
configured by `encode` with the options' delimiter, double-quote toggle,
escape byte and quote style) writes each field applying the quoting decision
of the configured policy — text containing the delimiter byte, the quote
character or a line-terminator byte forces quoting as the `necessary`
baseline, which `always` and `nonNumeric` extend and `never` overrides — and
escapes a quote character inside a quoted field by doubling it when
double-quoting is enabled and by prefixing the escape byte otherwise.  Fields
are joined with the delimiter byte, with no terminator written after the
last field (the writer is never told to terminate the record). -/

/-- The quote character; the builder leaves the writer's default `"`. -/
def quoteByte : Nat := 34

/-- Is this byte a decimal digit. -/
def digitByte (b : Nat) : Bool := 48 ≤ b && b ≤ 57

/-- An optionally signed non-empty digit string (an exponent part). -/
def expDigits (l : List Nat) : Bool :=
  let core := match l with
    | b :: t => if b = 43 || b = 45 then t else l
    | [] => []
  !core.isEmpty && core.all digitByte

/-- Modelled from the spec: whether field text parses as an integer or
floating-point number (optional sign, digits with an optional decimal point
and an optional exponent); `nonNumeric` quoting quotes everything else. -/
def isNumericText (f : List Nat) : Bool :=
  let core := match f with
    | b :: t => if b = 43 || b = 45 then t else f
    | [] => []
  let ip := core.span digitByte
  match ip.2 with
  | [] => !ip.1.isEmpty
  | 46 :: frac =>
    let fp := frac.span digitByte
    (!ip.1.isEmpty || !fp.1.isEmpty) &&
      (match fp.2 with
       | [] => true
       | 101 :: ex => expDigits ex
       | 69 :: ex => expDigits ex
       | _ => false)
  | 101 :: ex => !ip.1.isEmpty && expDigits ex
  | 69 :: ex => !ip.1.isEmpty && expDigits ex
  | _ => false

/-- Necessity: the text contains the delimiter byte, the quote character, or
a line-terminator byte. -/
def needsQuotes (delim : Nat) (f : List Nat) : Bool :=
  f.any (fun b => b == delim || b == quoteByte || b == 10 || b == 13)

/-- The writer's quoting decision for one field under a quote style. -/
def shouldQuote (style : QuoteStyle) (delim : Nat) (f : List Nat) : Bool :=
  match style with
  | .always => true
  | .never => false
  | .necessary => needsQuotes delim f
  | .nonNumeric => needsQuotes delim f || !isNumericText f

/-- Escaping inside a quoted field: each quote character becomes two quote
characters when double-quoting is enabled, and escape-byte-then-quote
otherwise; every other byte is copied. -/
def escapeField (dq : Bool) (esc : Nat) : List Nat → List Nat
  | [] => []
  | b :: rest =>
    (if b = quoteByte then
       if dq then [quoteByte, quoteByte] else [esc, quoteByte]
     else [b]) ++ escapeField dq esc rest

/-- The bytes the writer emits for one field (`write_field`): the raw text,
wrapped in quotes with its quote characters escaped when the quoting
decision requires it. -/
def writeField (o : CsvSerializerOptions) (f : List Nat) : List Nat :=
  if shouldQuote o.csv_quote_style o.delimiter f then
    quoteByte :: escapeField o.double_quote o.escape f ++ [quoteByte]
  else f

/-- The bytes of a whole line: the first field is written with no leading
delimiter, each subsequent field is preceded by one delimiter byte, and
nothing follows the last field. -/
def writeFields (o : CsvSerializerOptions) : List (List Nat) → List Nat
  | [] => []
  | t :: ts => writeField o t ++ ts.flatMap (fun u => o.delimiter :: writeField o u)

/-! ## The encoder (`CsvSerializer::encode`) -/

/-- The per-type field-text dispatch of `encode`: byte-strings as their
(lossily decoded) text, integers and floats as their canonical decimal text,
booleans as `true`/`false`, timestamps as RFC 3339 `Z` text, and null,
missing and complex values (array, object, regex) as empty text. -/
def fieldText : Option Value → List Nat
  | some (.str s) => utf8Encode s
  | some (.int i) => intToBytes i
  | some (.float t) => utf8Encode t
  | some (.bool b) => if b then utf8Encode "true" else utf8Encode "false"
  | some (.timestamp secs nanos) => rfc3339AutoSiZ secs nanos
  | some .null => []
  | some (.array _) => []
  | some (.object _) => []
  | some (.regex _) => []
  | none => []

/-- The line produced for one record: each configured field path is resolved
against the record, dispatched to its field text, and written by the writer. -/
def encodeLine (o : CsvSerializerOptions) (r : Record) : List Nat :=
  writeFields o (o.fields.map (fun p => fieldText (resolvePath r p)))

/-- Encode one record into the byte sink (`CsvSerializer::encode`).  Writing
to the in-memory sink cannot fail, so the call always succeeds and the model
returns the updated sink: the old contents followed by the encoded line. -/
def CsvSerializer.encode (s : CsvSerializer) (event : Record) (buffer : List Nat) : List Nat :=
  buffer ++ encodeLine s.config.csv event

theorem intercalate_singleton_cons (d : Nat) (a b : List Nat) (rest : List (List Nat)) :
    List.intercalate [d] (a :: b :: rest) = a ++ d :: List.intercalate [d] (b :: rest) := by
  simp [List.intercalate, List.intersperse_cons_cons]

theorem writeFields_eq_intercalate (o : CsvSerializerOptions) :
    ∀ ts : List (List Nat),
      writeFields o ts = List.intercalate [o.delimiter] (ts.map (writeField o))
  | [] => by simp [writeFields, List.intercalate]
  | [t] => by simp [writeFields, List.intercalate]
  | t :: u :: us => by
    have ih := writeFields_eq_intercalate o (u :: us)
    rw [List.map_cons, List.map_cons, intercalate_singleton_cons, ← List.map_cons, ← ih]
    simp [writeFields, List.append_assoc]

theorem escapeField_eq_flatMap (dq : Bool) (esc : Nat) :
    ∀ f : List Nat,
      escapeField dq esc f = f.flatMap (fun b =>
        if b = quoteByte then
          if dq then [quoteByte, quoteByte] else [esc, quoteByte]
        else [b])
  | [] => rfl
  | b :: rest => by
    rw [escapeField, List.flatMap_cons, escapeField_eq_flatMap dq esc rest]

/-! ## Concrete configurations and records used by the witnesses -/

def c2fields : List FieldPath :=
  [["foo"], ["int"], ["comma"], ["float"], ["missing"], ["space"], ["time"], ["quote"], ["bool"]]

def c2opts : CsvSerializerOptions :=
  { CsvSerializerOptions.default with fields := c2fields }

def c2record : Record :=
  [("foo", .str "bar"), ("int", .int 123), ("comma", .str "abc,bcd"),
   ("float", .float "3.1415925"), ("space", .str "sp ace"),
   ("time", .timestamp (mkTimestampSecs 2023 2 27 15 4 49 480) 363000000),
   ("quote", .str "the \"quote\" should be escaped"), ("bool", .bool true)]

def c2expected : List Nat :=
  utf8Encode "bar,123,\"abc,bcd\",3.1415925,,sp ace,2023-02-27T07:04:49.363Z,\"the \"\"quote\"\" should be escaped\",true"

/-- C1: for every options value, build fails with exactly the message
"At least one CSV field must be specified" when the fields list is empty,
and succeeds with no other validation — returning the serializer that
snapshots the options — when the fields list is non-empty. -/
theorem build_empty_iff_error (o : CsvSerializerOptions) :
    (o.fields = [] →
      CsvSerializerConfig.build ⟨o⟩ = .error "At least one CSV field must be specified") ∧
    (o.fields ≠ [] →
      CsvSerializerConfig.build ⟨o⟩ = .ok (CsvSerializer.new ⟨o⟩)) := by
  constructor
  · intro h
    simp [CsvSerializerConfig.build, h]
  · intro h
    simp [CsvSerializerConfig.build, h, CsvSerializer.new]

/-- Witness for build_empty_iff_error: the default options have an empty
field list and fail; adding one field makes build succeed. -/
theorem build_empty_iff_error_witness :
    CsvSerializerConfig.build ⟨CsvSerializerOptions.default⟩ =
      .error "At least one CSV field must be specified" ∧
    CsvSerializerConfig.build ⟨c2opts⟩ = .ok (CsvSerializer.new ⟨c2opts⟩) :=
  ⟨(build_empty_iff_error CsvSerializerOptions.default).1 rfl,
   (build_empty_iff_error c2opts).2 (by decide)⟩

/-- C2: encoding the scenario record with field list
[foo, int, comma, float, missing, space, time, quote, bool] under default
options appends exactly the bytes of
bar,123,"abc,bcd",3.1415925,,sp ace,2023-02-27T07:04:49.363Z,"the ""quote"" should be escaped",true
to the sink. -/
theorem encode_scenario_record (s : CsvSerializer)
    (h : CsvSerializerConfig.build ⟨c2opts⟩ = .ok s) (buffer : List Nat) :
    s.encode c2record buffer = buffer ++ c2expected := by
  have h' : (Except.ok (CsvSerializer.new ⟨c2opts⟩) : Except String CsvSerializer) = .ok s := h
  injection h' with h2
  rw [← h2]
  show buffer ++ encodeLine c2opts c2record = buffer ++ c2expected
  exact congrArg (buffer ++ ·) (by decide)

/-- Witness for encode_scenario_record at the built serializer and an empty
sink. -/
theorem encode_scenario_record_witness :
    CsvSerializer.encode (CsvSerializer.new ⟨c2opts⟩) c2record [] = [] ++ c2expected :=
  encode_scenario_record (CsvSerializer.new ⟨c2opts⟩) rfl []

/-- C3: encode emits one output field per configured entry, in exact list
order (duplicate paths each producing their own field), and the output
depends on the record only through path resolution. -/
theorem encode_order_and_resolution (o : CsvSerializerOptions) (r : Record) (buffer : List Nat) :
    CsvSerializer.encode (CsvSerializer.new ⟨o⟩) r buffer
      = buffer ++ List.intercalate [o.delimiter]
          (o.fields.map (fun p => writeField o (fieldText (resolvePath r p)))) ∧
    (∀ r' : Record, (∀ p ∈ o.fields, resolvePath r p = resolvePath r' p) →
      CsvSerializer.encode (CsvSerializer.new ⟨o⟩) r buffer
        = CsvSerializer.encode (CsvSerializer.new ⟨o⟩) r' buffer) := by
  constructor
  · show buffer ++ encodeLine o r = _
    rw [encodeLine, writeFields_eq_intercalate, List.map_map]
    rfl
  · intro r' hr
    show buffer ++ encodeLine o r = buffer ++ encodeLine o r'
    rw [encodeLine, encodeLine]
    congr 1
    congr 1
    exact List.map_congr_left (fun p hp => by rw [hr p hp])

def c3opts : CsvSerializerOptions :=
  { CsvSerializerOptions.default with fields := [["a"], ["b"], ["b"]] }

def c3rec : Record := [("a", .str "x"), ("b", .int 7)]

def c3rec2 : Record := [("b", .int 7), ("z", .null), ("a", .str "x")]

/-- Witness for encode_order_and_resolution: two records with different
internal orderings that resolve alike encode identically. -/
theorem encode_order_and_resolution_witness :
    CsvSerializer.encode (CsvSerializer.new ⟨c3opts⟩) c3rec []
      = CsvSerializer.encode (CsvSerializer.new ⟨c3opts⟩) c3rec2 [] :=
  (encode_order_and_resolution c3opts c3rec []).2 c3rec2 (by
    intro p hp
    simp only [c3opts, List.mem_cons, List.not_mem_nil, or_false] at hp
    rcases hp with rfl | rfl | rfl <;> rfl)

/-- C4: a configured path that is absent, or resolves to null or to a
complex value (array, object, regex), yields empty field text; the encode
call succeeds (it is total in the model) and writes the empty field at the
entry's position, distinguishable only by that position. -/
theorem missing_null_complex_yield_empty (o : CsvSerializerOptions) (r : Record)
    (p : FieldPath) (buffer : List Nat)
    (h : resolvePath r p = none ∨ resolvePath r p = some .null ∨
         (∃ xs, resolvePath r p = some (.array xs)) ∨
         (∃ kvs, resolvePath r p = some (.object kvs)) ∨
         (∃ s, resolvePath r p = some (.regex s))) :
    fieldText (resolvePath r p) = [] ∧
    (∀ i : Nat, o.fields[i]? = some p →
      (o.fields.map (fun q => writeField o (fieldText (resolvePath r q))))[i]?
        = some (writeField o [])) ∧
    CsvSerializer.encode (CsvSerializer.new ⟨{ o with fields := [p] }⟩) r buffer
      = buffer ++ writeField o [] := by
  have ht : fieldText (resolvePath r p) = [] := by
    rcases h with h | h | ⟨xs, h⟩ | ⟨kvs, h⟩ | ⟨s, h⟩ <;> rw [h] <;> rfl
  refine ⟨ht, ?_, ?_⟩
  · intro i hi
    rw [List.getElem?_map, hi]
    simp [ht]
  · show buffer ++ encodeLine _ r = _
    rw [encodeLine]
    show buffer ++ writeFields _ [fieldText (resolvePath r p)] = _
    rw [ht]
    show buffer ++ (writeField o [] ++ List.flatMap _ _) = _
    simp [List.flatMap]

def c4rec : Record := [("null", .null), ("arr", .array [.int 1]), ("obj", .object [("k", .int 2)])]

/-- Witness for missing_null_complex_yield_empty at an absent path of a
concrete record. -/
theorem missing_null_complex_yield_empty_witness :
    fieldText (resolvePath c4rec ["gone"]) = [] ∧
    (∀ i : Nat, c3opts.fields[i]? = some ["gone"] →
      (c3opts.fields.map (fun q => writeField c3opts (fieldText (resolvePath c4rec q))))[i]?
        = some (writeField c3opts [])) ∧
    CsvSerializer.encode (CsvSerializer.new ⟨{ c3opts with fields := [["gone"]] }⟩) c4rec []
      = [] ++ writeField c3opts [] :=
  missing_null_complex_yield_empty c3opts c4rec ["gone"] [] (Or.inl rfl)

/-- C5: field text containing the active delimiter byte or the quote
character is wrapped in quotes under the always, necessary and nonNumeric
quoting policies, and written raw (unquoted) under never. -/
theorem delimiter_or_quote_forces_quoting (o : CsvSerializerOptions) (f : List Nat)
    (h : o.delimiter ∈ f ∨ quoteByte ∈ f) :
    ((o.quote_style = .always ∨ o.quote_style = .necessary ∨ o.quote_style = .nonNumeric) →
      writeField o f = quoteByte :: escapeField o.double_quote o.escape f ++ [quoteByte]) ∧
    (o.quote_style = .never → writeField o f = f) := by
  have hn : needsQuotes o.delimiter f = true := by
    rcases h with h | h
    · exact List.any_eq_true.mpr ⟨o.delimiter, h, by simp⟩
    · exact List.any_eq_true.mpr ⟨quoteByte, h, by simp⟩
  constructor
  · rintro (hs | hs | hs) <;>
      simp [writeField, CsvSerializerOptions.csv_quote_style, hs, shouldQuote, hn]
  · intro hs
    simp [writeField, CsvSerializerOptions.csv_quote_style, hs, shouldQuote]

def c5f : List Nat := utf8Encode "abc,bcd"

def c5never : CsvSerializerOptions :=
  { CsvSerializerOptions.default with quote_style := .never, fields := [["a"]] }

/-- Witness for delimiter_or_quote_forces_quoting: a comma-containing field
under the default (necessary) policy and under never. -/
theorem delimiter_or_quote_forces_quoting_witness :
    writeField c2opts c5f
      = quoteByte :: escapeField c2opts.double_quote c2opts.escape c5f ++ [quoteByte] ∧
    writeField c5never c5f = c5f :=
  ⟨(delimiter_or_quote_forces_quoting c2opts c5f (Or.inl (by decide))).1 (Or.inr (Or.inl rfl)),
   (delimiter_or_quote_forces_quoting c5never c5f (Or.inl (by decide))).2 rfl⟩

/-- C6: inside a quoted field, each quote character is emitted doubled when
double-quoting is enabled, and as the escape byte \ followed by the quote
when double-quoting is disabled with escape byte \. -/
theorem quote_escaping_in_quoted_field (o : CsvSerializerOptions) (f : List Nat)
    (hq : shouldQuote o.csv_quote_style o.delimiter f = true) (_hmem : quoteByte ∈ f) :
    (o.double_quote = true →
      writeField o f = quoteByte ::
        f.flatMap (fun b => if b = quoteByte then [quoteByte, quoteByte] else [b])
          ++ [quoteByte]) ∧
    (o.double_quote = false → o.escape = 92 →
      writeField o f = quoteByte ::
        f.flatMap (fun b => if b = quoteByte then [92, quoteByte] else [b])
          ++ [quoteByte]) := by
  constructor
  · intro hdq
    rw [writeField, if_pos hq, escapeField_eq_flatMap]
    simp only [hdq, if_true]
  · intro hdq hesc
    rw [writeField, if_pos hq, escapeField_eq_flatMap]
    simp only [hdq, hesc, if_false, Bool.false_eq_true]

def c6f : List Nat := [97, 34, 98]

def c6esc : CsvSerializerOptions :=
  { CsvSerializerOptions.default with double_quote := false, escape := 92, fields := [["a"]] }

/-- Witness for quote_escaping_in_quoted_field on the field text a"b under
both escaping modes. -/
theorem quote_escaping_in_quoted_field_witness :
    writeField c2opts c6f = [34, 97, 34, 34, 98, 34] ∧
    writeField c6esc c6f = [34, 97, 92, 34, 98, 34] :=
  ⟨((quote_escaping_in_quoted_field c2opts c6f (by decide) (by decide)).1 rfl).trans (by decide),
   ((quote_escaping_in_quoted_field c6esc c6f (by decide) (by decide)).2 rfl rfl).trans (by decide)⟩

def c7opts : CsvSerializerOptions :=
  { CsvSerializerOptions.default with fields := [["foo"]] }

def c7rec : Record := [("foo", .str "bar")]

/-- C7 counterexample: at a concrete record the appended bytes are non-empty
yet end with neither a line-feed nor a carriage-return byte, so the call does
not append a terminated line. -/
theorem encode_output_not_terminated :
    CsvSerializer.encode (CsvSerializer.new ⟨c7opts⟩) c7rec [] ≠ [] ∧
    (CsvSerializer.encode (CsvSerializer.new ⟨c7opts⟩) c7rec []).getLast? ≠ some 10 ∧
    (CsvSerializer.encode (CsvSerializer.new ⟨c7opts⟩) c7rec []).getLast? ≠ some 13 := by
  decide

/-- C7 (amended): a successful encode call appends exactly one record's worth
of bytes — the configured fields' written texts joined by the configured
delimiter byte, with no leading delimiter before the first field, no trailing
delimiter after the last field, and no line terminator appended. -/
theorem encode_appends_one_joined_record (o : CsvSerializerOptions) (r : Record)
    (buffer : List Nat) :
    CsvSerializer.encode (CsvSerializer.new ⟨o⟩) r buffer
      = buffer ++ List.intercalate [o.delimiter]
          (o.fields.map (fun p => writeField o (fieldText (resolvePath r p)))) := by
  show buffer ++ encodeLine o r = _
  rw [encodeLine, writeFields_eq_intercalate, List.map_map]
  rfl

/-- C8: building twice from identical options yields encoders whose output
bytes coincide on every record and sink. -/
theorem encode_deterministic (o o' : CsvSerializerOptions) (h : o = o')
    (s s' : CsvSerializer)
    (hs : CsvSerializerConfig.build ⟨o⟩ = .ok s)
    (hs' : CsvSerializerConfig.build ⟨o'⟩ = .ok s')
    (r : Record) (buffer : List Nat) :
    CsvSerializer.encode s r buffer = CsvSerializer.encode s' r buffer := by
  subst h
  rw [hs] at hs'
  injection hs' with h2
  rw [h2]

/-- Witness for encode_deterministic on two syntactically different but equal
options values. -/
theorem encode_deterministic_witness :
    CsvSerializer.encode (CsvSerializer.new ⟨c7opts⟩) c7rec []
      = CsvSerializer.encode (CsvSerializer.new ⟨⟨44, true, 34, .necessary, [["foo"]]⟩⟩) c7rec [] :=
  encode_deterministic c7opts ⟨44, true, 34, .necessary, [["foo"]]⟩ (by decide)
    (CsvSerializer.new ⟨c7opts⟩) (CsvSerializer.new ⟨⟨44, true, 34, .necessary, [["foo"]]⟩⟩)
    rfl rfl c7rec []

/-- C9: encode only appends: the prior sink contents are left in place as a
prefix and the appended bytes do not depend on them. -/
theorem encode_preserves_sink (s : CsvSerializer) (r : Record) (buffer : List Nat) :
    CsvSerializer.encode s r buffer = buffer ++ CsvSerializer.encode s r [] := by
  simp [CsvSerializer.encode]

/-- C10: the default options have an empty fields list, delimiter comma,
double-quote enabled, escape quote and necessary quoting, so building from a
default-constructed configuration fails with the empty-projection error. -/
theorem default_config_build_fails :
    CsvSerializerOptions.default.fields = [] ∧
    CsvSerializerOptions.default.delimiter = 44 ∧
    CsvSerializerOptions.default.double_quote = true ∧
    CsvSerializerOptions.default.escape = 34 ∧
    CsvSerializerOptions.default.quote_style = QuoteStyle.necessary ∧
    CsvSerializerConfig.build ⟨CsvSerializerOptions.default⟩ =
      .error "At least one CSV field must be specified" :=
  ⟨rfl, rfl, rfl, rfl, rfl, rfl⟩
